import Mathlib

/-!
Verification of the unit-converter HTTP service (src/server.py) against its
natural-language specification.

Shallow embedding conventions:
* Python `float` values are modelled as rationals (ℚ); the arithmetic in the
  converter is exact on the literals involved.
* Python strings that the template engine scans are modelled as `List Char`;
  unit codes and category names, which are only ever compared for equality,
  are modelled as Lean `String`.
* A Python function that can raise an exception is modelled as returning
  `Option _`, with `none` standing for a raised exception.
* Python `dict`s are modelled as association lists in insertion order;
  `dict.get` / `in` become `alookup`.
-/

/-- Association-list lookup modelling Python `dict.get` / `dict.__getitem__` /
`in` membership tests (first match; keys of a Python dict are unique). -/
def alookup {α : Type} [DecidableEq α] {β : Type} : List (α × β) → α → Option β
  | [], _ => none
  | p :: ps, k => if p.1 = k then some p.2 else alookup ps k

/-- One entry of a category's `units` dict: `{'name': ..., 'factor': ...}`.
`factor` is `none` for temperature units, which carry no `'factor'` key. -/
structure UnitInfo where
  name : String
  factor : Option ℚ
deriving DecidableEq

/-- One entry of `UNITS_CONFIG`: `{'label': ..., 'units': {...}}`. -/
structure CategoryCfg where
  label : String
  units : List (String × UnitInfo)
deriving DecidableEq

/-- The `'length'` entry of `UNITS_CONFIG` (src/server.py lines 12-24). -/
def lengthCfg : CategoryCfg :=
  { label := "Длина"
    units :=
      [ ("km", ⟨"Километры", some 1000.0⟩)
      , ("m", ⟨"Метры", some 1.0⟩)
      , ("cm", ⟨"Сантиметры", some 0.01⟩)
      , ("mm", ⟨"Миллиметры", some 0.001⟩)
      , ("miles", ⟨"Мили", some 1609.34⟩)
      , ("yards", ⟨"Ярды", some 0.9144⟩)
      , ("feet", ⟨"Футы", some 0.3048⟩)
      , ("inches", ⟨"Дюймы", some 0.0254⟩) ] }

/-- The `'weight'` entry of `UNITS_CONFIG` (src/server.py lines 25-34). -/
def weightCfg : CategoryCfg :=
  { label := "Вес"
    units :=
      [ ("kg", ⟨"Килограммы", some 1.0⟩)
      , ("g", ⟨"Граммы", some 0.001⟩)
      , ("mg", ⟨"Миллиграммы", some 0.000001⟩)
      , ("pounds", ⟨"Фунты", some 0.453592⟩)
      , ("ounces", ⟨"Унции", some 0.0283495⟩) ] }

/-- The `'temperature'` entry of `UNITS_CONFIG` (src/server.py lines 35-42);
its units carry no `'factor'` key. -/
def temperatureCfg : CategoryCfg :=
  { label := "Температура"
    units :=
      [ ("c", ⟨"Цельсий", none⟩)
      , ("f", ⟨"Фаренгейт", none⟩)
      , ("k", ⟨"Кельвин", none⟩) ] }

/-- The `'volume'` entry of `UNITS_CONFIG` (src/server.py lines 43-50). -/
def volumeCfg : CategoryCfg :=
  { label := "Объем"
    units :=
      [ ("liters", ⟨"Литры", some 1.0⟩)
      , ("ml", ⟨"Миллилитры", some 0.001⟩)
      , ("gallons", ⟨"Галлоны", some 3.78541⟩) ] }

/-- The module-level `UNITS_CONFIG` dict (src/server.py lines 11-51). -/
def UNITS_CONFIG : List (String × CategoryCfg) :=
  [ ("length", lengthCfg)
  , ("weight", weightCfg)
  , ("temperature", temperatureCfg)
  , ("volume", volumeCfg) ]

/-- `ConverterService._convert_temp` (src/server.py lines 134-150):
normalise to Celsius, then convert from Celsius to the target unit. -/
def ConverterService.convert_temp (value : ℚ) (from_unit to_unit : String) : ℚ :=
  let celsius :=
    if from_unit = "f" then (value - 32) * 5 / 9
    else if from_unit = "k" then value - 273.15
    else value
  if to_unit = "c" then celsius
  else if to_unit = "f" then celsius * 9 / 5 + 32
  else if to_unit = "k" then celsius + 273.15
  else celsius

/-- The linear branch of `ConverterService.convert` (src/server.py lines
126-132): membership checks on both unit codes, then
`value * units[from_unit]['factor'] / units[to_unit]['factor']`.
The inner `none` branch models a `KeyError` on a unit lacking a `'factor'`
key; it is unreachable for the non-temperature categories of `UNITS_CONFIG`,
whose units all carry factors. -/
def linearConvert (units : List (String × UnitInfo)) (value : ℚ)
    (from_unit to_unit : String) : Option ℚ :=
  match alookup units from_unit, alookup units to_unit with
  | some uf, some ut =>
    match uf.factor, ut.factor with
    | some ff, some tf => some (value * ff / tf)
    | _, _ => none
  | _, _ => none

/-- `ConverterService.convert` (src/server.py lines 116-132): `None` for an
unknown category; the temperature-specific path for `'temperature'`;
otherwise the linear factor-table path. -/
def ConverterService.convert (category : String) (value : ℚ)
    (from_unit to_unit : String) : Option ℚ :=
  match alookup UNITS_CONFIG category with
  | none => none
  | some cfg =>
    if category = "temperature" then
      some (ConverterService.convert_temp value from_unit to_unit)
    else
      linearConvert cfg.units value from_unit to_unit

/-- The claim's Celsius-pivot function `c(v, f)`, written following the
spec's words (for comparison with `ConverterService.convert_temp`). -/
def celsiusPerClaim (v : ℚ) (f : String) : ℚ :=
  if f = "c" then v
  else if f = "f" then (v - 32) * 5 / 9
  else if f = "k" then v - 273.15
  else v

/-- The claim's target-mapping function `g(cel, t)`, written following the
spec's words (for comparison with `ConverterService.convert_temp`). -/
def fromCelsiusPerClaim (cel : ℚ) (t : String) : ℚ :=
  if t = "c" then cel
  else if t = "f" then cel * 9 / 5 + 32
  else if t = "k" then cel + 273.15
  else cel

/-- One history record `{'from_val': ..., 'to_val': ...}`
(src/server.py lines 250-253). -/
structure Entry where
  from_val : String
  to_val : String
deriving DecidableEq

/-- The history append-and-cap step of `RequestHandler.do_POST`
(src/server.py lines 250-256): `history.append(entry)` followed by
`if len(history) > 5: history.pop(0)`. -/
def pushHistory (hist : List Entry) (e : Entry) : List Entry :=
  let h2 := hist ++ [e]
  if h2.length > 5 then h2.drop 1 else h2

/-- Round to the nearest integer, ties to even, modelling the rounding of
Python's fixed-point formatting. -/
def roundHalfEven (x : ℚ) : ℤ :=
  let f := Rat.floor x
  let r := x - f
  if r < 1 / 2 then f
  else if 1 / 2 < r then f + 1
  else if f % 2 = 0 then f else f + 1

/-- Strip all trailing occurrences of `c`, modelling Python `str.rstrip`. -/
def rstripChar (c : Char) (s : List Char) : List Char :=
  (s.reverse.dropWhile (fun d => d = c)).reverse

/-- The result formatting of `do_POST` (src/server.py line 241):
`f"{res:.4f}".rstrip('0').rstrip('.')`. The fixed-point rendering is
modelled by exact half-even rounding of the rational at 4 decimal places. -/
def fmt4 (q : ℚ) : List Char :=
  let n := roundHalfEven (q * 10000)
  let sign : List Char := if n < 0 then ['-'] else []
  let ds := (toString n.natAbs).data
  let ds := if ds.length ≤ 4 then List.replicate (5 - ds.length) '0' ++ ds else ds
  let ip := ds.take (ds.length - 4)
  let fp := ds.drop (ds.length - 4)
  rstripChar '.' (rstripChar '0' (sign ++ ip ++ ['.'] ++ fp))

/-- `UNITS_CONFIG[category]['units'][unit]['name']`
(src/server.py lines 245-246); `none` models a raised `KeyError`. -/
def unitName (category u : String) : Option String :=
  match alookup UNITS_CONFIG category with
  | none => none
  | some cfg =>
    match alookup cfg.units u with
    | none => none
    | some ui => some ui.name

/-- The effect of the `'convert'` action of `RequestHandler.do_POST`
(src/server.py lines 234-260) on the shared history list, given an
already-parsed numeric amount. When `convert` returns `None` nothing
happens; otherwise the unit-name lookups for the explanation string run
first (lines 245-246) — a `KeyError` there (modelled as `none`) prevents
the append on line 250. -/
def postConvertHistory (hist : List Entry) (category amount_str : String)
    (value : ℚ) (from_unit to_unit : String) : Option (List Entry) :=
  match ConverterService.convert category value from_unit to_unit with
  | none => some hist
  | some res =>
    match unitName category from_unit, unitName category to_unit with
    | some nf, some nt =>
      let resf := String.mk (fmt4 res)
      some (pushHistory hist
        ⟨amount_str ++ " " ++ nf, resf ++ " " ++ nt⟩)
    | _, _ => none

/-- A unit record carries a factor and that factor is positive. -/
def factorPos (u : UnitInfo) : Prop :=
  match u.factor with
  | some q => 0 < q
  | none => False

/-! ### Template engine -/

/-- Convert a Lean string literal to the character-list representation the
template engine works on. -/
def s2l (s : String) : List Char := s.data

/-- A scalar Python value as stored in a template context or an item record:
`str`, `int`, `float` or `bool`. -/
inductive Scalar where
  | str (s : List Char)
  | int (n : ℤ)
  | float (q : ℚ)
  | bool (b : Bool)
deriving DecidableEq

/-- One loop item: a Python dict of named fields in insertion order. -/
abbrev Item := List (List Char × Scalar)

/-- A context value: a scalar or an ordered sequence of item records. -/
inductive Value where
  | scalar (v : Scalar)
  | list (l : List Item)
deriving DecidableEq

/-- A template context: a Python dict from names to values,
in insertion order. -/
abbrev Context := List (List Char × Value)

/-- Decimal rendering of a rational at `k` fractional digits, used to model
`str()` of a terminating decimal. -/
def decimalRender (q : ℚ) (k : ℕ) : List Char :=
  let n := (q * (10 : ℚ) ^ k).num
  let sign : List Char := if n < 0 then ['-'] else []
  let ds := (toString n.natAbs).data
  let ds := if ds.length ≤ k then List.replicate (k + 1 - ds.length) '0' ++ ds else ds
  let ip := ds.take (ds.length - k)
  let fp := ds.drop (ds.length - k)
  sign ++ ip ++ ['.'] ++ (if fp = [] then ['0'] else fp)

/-- Model of Python `str()` on a float value. Rationals that terminate in
decimal within 60 digits are rendered exactly; others fall back to a
fraction rendering. (The rational embedding cannot reproduce binary-float
shortest-round-trip printing; no claim evaluates this function on a
concrete float.) -/
def pyStrFloat (q : ℚ) : List Char :=
  match (List.range 61).find? (fun k => (q * (10 : ℚ) ^ k).den = 1) with
  | some k => decimalRender q k
  | none => (toString q.num).data ++ ['/'] ++ (toString q.den).data

/-- Model of Python `str()` on a scalar value (`str(val)` at
src/server.py line 88, line 108). -/
def pyStrScalar : Scalar → List Char
  | .str s => s
  | .int n => (toString n).data
  | .float q => pyStrFloat q
  | .bool b => if b then s2l "True" else s2l "False"

/-- Python truthiness of a scalar. -/
def scalarTruthy : Scalar → Bool
  | .str s => ¬ s.isEmpty
  | .int n => n ≠ 0
  | .float q => q ≠ 0
  | .bool b => b

/-- Python truthiness of `context.get(name)`: `None` (absent) is falsy,
a sequence is truthy iff non-empty. -/
def pyTruthy : Option Value → Bool
  | none => false
  | some (.scalar v) => scalarTruthy v
  | some (.list l) => ¬ l.isEmpty

/-- The claim's truthiness enumeration, written following the spec's words:
non-empty string, non-zero number, boolean true, non-empty sequence. -/
def truthyPerClaim : Value → Bool
  | .scalar (.str s) => s ≠ []
  | .scalar (.int n) => n ≠ 0
  | .scalar (.float q) => q ≠ 0
  | .scalar (.bool b) => b
  | .list l => l ≠ []

/-- Fueled worker for `replaceAll`; the fuel is an upper bound on the number
of scan steps and never runs out when it starts at the string's length. -/
def replaceAllF (pat repl : List Char) : Nat → List Char → List Char
  | 0, s => s
  | _ + 1, [] => []
  | n + 1, c :: rest =>
    if pat ≠ [] ∧ pat.isPrefixOf (c :: rest) then
      repl ++ replaceAllF pat repl n ((c :: rest).drop pat.length)
    else
      c :: replaceAllF pat repl n rest

/-- Python `str.replace(pat, repl)`: left-to-right, non-overlapping, and the
inserted replacement text is not rescanned. -/
def replaceAll (pat repl s : List Char) : List Char :=
  replaceAllF pat repl (s.length + 1) s

/-- The variable marker for a name: the characters of `"{{ name }}"`. -/
def varMarker (k : List Char) : List Char :=
  s2l "\x7b\x7b " ++ k ++ s2l " \x7d\x7d"

/-- The item-field marker for a field: the characters of
`"{{ item.field }}"` (src/server.py line 88). -/
def itemMarker (k : List Char) : List Char :=
  s2l "\x7b\x7b item." ++ k ++ s2l " \x7d\x7d"

/-- The per-item body substitution of `loop_replacer` (src/server.py lines
86-88): for each field of the item dict, in insertion order, replace the
field's marker in the body with the field value's string form. -/
def renderItem (body : List Char) (it : Item) : List Char :=
  it.foldl (fun temp kv => replaceAll (itemMarker kv.1) (pyStrScalar kv.2) temp) body

/-- `loop_replacer` (src/server.py lines 74-90): look up the loop name with
`context.get(list_name, [])`; a falsy result yields the else-body; a
non-empty sequence yields the item bodies accumulated by
`result_html = temp + result_html` (each rendered item prepended before the
previously rendered ones). A truthy non-sequence value would make the
per-item field iteration raise in Python, modelled as `none`. -/
def loop_replacer (ctx : Context) (list_name loop_body else_body : List Char) :
    Option (List Char) :=
  match alookup ctx list_name with
  | none => some else_body
  | some (.scalar v) => if scalarTruthy v then none else some else_body
  | some (.list items) =>
    if items.isEmpty then some else_body
    else some (items.foldl (fun acc it => renderItem loop_body it ++ acc) [])

/-- `if_replacer` (src/server.py lines 98-101): the inner content when the
named key is truthy in the context, the empty string otherwise. -/
def if_replacer (ctx : Context) (var_name inner_content : List Char) : List Char :=
  if pyTruthy (alookup ctx var_name) then inner_content else []

/-- A word character for the regex class `\w`. -/
def isWordChar (c : Char) : Bool := c.isAlphanum || c = '_'

/-- Split the longest leading run of word characters, modelling a greedy
`\w+` (followed by a non-word character, so no backtracking can shorten it). -/
def takeWord : List Char → List Char × List Char
  | [] => ([], [])
  | c :: s =>
    if isWordChar c then
      let p := takeWord s
      (c :: p.1, p.2)
    else ([], c :: s)

/-- Split a string at the first occurrence of `pat`, returning the parts
before and after it; models a lazy `(.*?)` followed by the literal `pat`. -/
def splitFirst (pat : List Char) : List Char → Option (List Char × List Char)
  | [] => if pat.isEmpty then some ([], []) else none
  | c :: s =>
    if pat.isPrefixOf (c :: s) then some ([], (c :: s).drop pat.length)
    else
      match splitFirst pat s with
      | some p => some (c :: p.1, p.2)
      | none => none

/-- The literal head of the loop pattern of src/server.py line 72. -/
def FOR_OPEN : List Char := s2l "\x7b% for item in "

/-- The literal closing the name group of both block patterns. -/
def TAG_CLOSE : List Char := s2l " %\x7d"

/-- The else marker of the loop pattern. -/
def ELSE_TAG : List Char := s2l "\x7b% else %\x7d"

/-- The closing marker of the loop pattern. -/
def ENDFOR_TAG : List Char := s2l "\x7b% endfor %\x7d"

/-- The literal head of the conditional pattern of src/server.py line 96. -/
def IF_OPEN : List Char := s2l "\x7b% if "

/-- The closing marker of the conditional pattern. -/
def ENDIF_TAG : List Char := s2l "\x7b% endif %\x7d"

/-- Attempt to complete a loop-pattern match directly after `FOR_OPEN`:
a non-empty `\w+` name, ` %}`, then the lazy bodies up to the first
`{% else %}` and the first `{% endfor %}` after it. Returns
`(name, body, else-body, rest)` on success. -/
def tryLoopAt (after : List Char) :
    Option (List Char × List Char × List Char × List Char) :=
  let w := takeWord after
  if w.1.isEmpty then none
  else if TAG_CLOSE.isPrefixOf w.2 then
    let r2 := w.2.drop TAG_CLOSE.length
    match splitFirst ELSE_TAG r2 with
    | none => none
    | some bp =>
      match splitFirst ENDFOR_TAG bp.2 with
      | none => none
      | some ep => some (w.1, bp.1, ep.1, ep.2)
  else none

/-- Leftmost match of the loop pattern
`\{% for item in (\w+) %\}(.*?)\{% else %\}(.*?)\{% endfor %\}` (DOTALL):
returns `(text before the match, name, body, else-body, text after)`.
A failed attempt at one `FOR_OPEN` site resumes the scan one character
later, as the regex engine does. -/
def findLoop : List Char →
    Option (List Char × List Char × List Char × List Char × List Char)
  | [] => none
  | c :: s =>
    match
      (if FOR_OPEN.isPrefixOf (c :: s) then
        tryLoopAt ((c :: s).drop FOR_OPEN.length)
      else none) with
    | some r => some ([], r.1, r.2.1, r.2.2.1, r.2.2.2)
    | none =>
      match findLoop s with
      | some r => some (c :: r.1, r.2.1, r.2.2.1, r.2.2.2.1, r.2.2.2.2)
      | none => none

/-- Attempt to complete a conditional-pattern match directly after
`IF_OPEN`: a non-empty `\w+` name, ` %}`, then the lazy body up to the
first `{% endif %}`. Returns `(name, inner content, rest)` on success. -/
def tryIfAt (after : List Char) : Option (List Char × List Char × List Char) :=
  let w := takeWord after
  if w.1.isEmpty then none
  else if TAG_CLOSE.isPrefixOf w.2 then
    let r2 := w.2.drop TAG_CLOSE.length
    match splitFirst ENDIF_TAG r2 with
    | none => none
    | some bp => some (w.1, bp.1, bp.2)
  else none

/-- Leftmost match of the conditional pattern
`\{% if (\w+) %\}(.*?)\{% endif %\}` (DOTALL): returns
`(text before the match, name, inner content, text after)`. -/
def findIf : List Char → Option (List Char × List Char × List Char × List Char)
  | [] => none
  | c :: s =>
    match
      (if IF_OPEN.isPrefixOf (c :: s) then
        tryIfAt ((c :: s).drop IF_OPEN.length)
      else none) with
    | some r => some ([], r.1, r.2.1, r.2.2)
    | none =>
      match findIf s with
      | some r => some (c :: r.1, r.2.1, r.2.2.1, r.2.2.2)
      | none => none

/-- Fueled worker for stage 1: `loop_pattern.sub(loop_replacer, content)`
(src/server.py line 92). Matches are replaced left to right; replacement
text is not rescanned; a raised exception in the replacer (`none`)
propagates. The fuel never runs out when it starts at the string's length,
as each match consumes at least the marker characters. -/
def subLoopsF (ctx : Context) : Nat → List Char → Option (List Char)
  | 0, s => some s
  | n + 1, s =>
    match findLoop s with
    | none => some s
    | some r =>
      match loop_replacer ctx r.2.1 r.2.2.1 r.2.2.2.1 with
      | none => none
      | some mid =>
        match subLoopsF ctx n r.2.2.2.2 with
        | none => none
        | some tail => some (r.1 ++ mid ++ tail)

/-- Stage 1 of `TemplateEngine.render`: loop-block resolution. -/
def subLoops (ctx : Context) (s : List Char) : Option (List Char) :=
  subLoopsF ctx (s.length + 1) s

/-- Fueled worker for stage 2: `if_pattern.sub(if_replacer, content)`
(src/server.py line 103). -/
def subIfsF (ctx : Context) : Nat → List Char → List Char
  | 0, s => s
  | n + 1, s =>
    match findIf s with
    | none => s
    | some r => r.1 ++ if_replacer ctx r.2.1 r.2.2.1 ++ subIfsF ctx n r.2.2.2

/-- Stage 2 of `TemplateEngine.render`: conditional-block resolution. -/
def subIfs (ctx : Context) (s : List Char) : List Char :=
  subIfsF ctx (s.length + 1) s

/-- The stage-3 guard `isinstance(value, (str, int, float))`
(src/server.py line 107). Note that Python `bool` is a subclass of `int`,
so boolean values pass this test. -/
def isinstance_str_int_float : Value → Bool
  | .scalar _ => true
  | .list _ => false

/-- Model of Python `str()` on a context value. The sequence case is
unreachable from `stage3`, whose `isinstance` guard rejects sequences
before `str` is applied. -/
def pyStrValue : Value → List Char
  | .scalar v => pyStrScalar v
  | .list _ => s2l "<list>"

/-- Stage 3 of `TemplateEngine.render` (src/server.py lines 106-108): for
each context entry in insertion order whose value passes the `isinstance`
guard, replace the entry's variable marker with the value's string form. -/
def stage3 (ctx : Context) (s : List Char) : List Char :=
  ctx.foldl
    (fun content kv =>
      if isinstance_str_int_float kv.2 then
        replaceAll (varMarker kv.1) (pyStrValue kv.2) content
      else content)
    s

/-- The fixed fragment returned when the template file does not exist
(src/server.py line 65). -/
def ERROR_FRAGMENT : List Char := s2l "<h1>Error: Template file not found.</h1>"

/-- The file-system state of the template file as `render` observes it:
whether `self.template_path.exists()` holds, and the text the subsequent
`open`/`read` yields (`none` models a raised I/O or decode error). -/
structure TemplateFile where
  found : Bool
  content : Option (List Char)

/-- `TemplateEngine.render` (src/server.py lines 63-110): the existence
guard, then the three-stage pipeline. The outer `none` models an exception
escaping `render`. -/
def TemplateEngine.render (tf : TemplateFile) (ctx : Context) : Option (List Char) :=
  if tf.found = false then some ERROR_FRAGMENT
  else
    match tf.content with
    | none => none
    | some content =>
      match subLoops ctx content with
      | none => none
      | some c1 => some (stage3 ctx (subIfs ctx c1))

/-- The example loop template of C1:
`{% for item in h %}[{{ item.x }}]{% else %}none{% endfor %}`. -/
def tmplC1 : List Char :=
  s2l "\x7b% for item in h %\x7d[\x7b\x7b item.x \x7d\x7d]\x7b% else %\x7dnone\x7b% endfor %\x7d"

/-- The example conditional template of C6:
`{% if flag %}shown{% endif %}rest`. -/
def tmplC6 : List Char :=
  s2l "\x7b% if flag %\x7dshown\x7b% endif %\x7drest"

/-- The loop body used by C10: `[{{ item.x }}]{{ item.y }}`. -/
def bodyC10 : List Char :=
  s2l "[\x7b\x7b item.x \x7d\x7d]\x7b\x7b item.y \x7d\x7d"

/-- The loop template used by C10:
`{% for item in h %}[{{ item.x }}]{{ item.y }}{% else %}-{% endfor %}`. -/
def tmplC10 : List Char :=
  s2l "\x7b% for item in h %\x7d[\x7b\x7b item.x \x7d\x7d]\x7b\x7b item.y \x7d\x7d\x7b% else %\x7d-\x7b% endfor %\x7d"

/-! ### Helper lemmas -/

theorem alookup_mem {α β : Type} [DecidableEq α] (l : List (α × β)) (k : α) (v : β)
    (h : alookup l k = some v) : (k, v) ∈ l := by
  induction l with
  | nil => simp [alookup] at h
  | cons p ps ih =>
    rcases p with ⟨a, b⟩
    by_cases hk : a = k
    · subst hk
      simp [alookup] at h
      subst h
      exact List.mem_cons_self _ _
    · simp [alookup, hk] at h
      exact List.mem_cons_of_mem _ (ih h)

theorem config_cases (category : String) (cfg : CategoryCfg)
    (hc : alookup UNITS_CONFIG category = some cfg) :
    (category = "length" ∧ cfg = lengthCfg) ∨ (category = "weight" ∧ cfg = weightCfg) ∨
      (category = "temperature" ∧ cfg = temperatureCfg) ∨
      (category = "volume" ∧ cfg = volumeCfg) := by
  simp only [UNITS_CONFIG, alookup] at hc
  split_ifs at hc with h1 h2 h3 h4
  · exact Or.inl ⟨h1.symm, (Option.some.inj hc).symm⟩
  · exact Or.inr (Or.inl ⟨h2.symm, (Option.some.inj hc).symm⟩)
  · exact Or.inr (Or.inr (Or.inl ⟨h3.symm, (Option.some.inj hc).symm⟩))
  · exact Or.inr (Or.inr (Or.inr ⟨h4.symm, (Option.some.inj hc).symm⟩))

theorem lengthCfg_factorPos : ∀ p ∈ lengthCfg.units, factorPos p.2 := by
  intro p hp
  fin_cases hp <;> norm_num [factorPos, lengthCfg]

theorem weightCfg_factorPos : ∀ p ∈ weightCfg.units, factorPos p.2 := by
  intro p hp
  fin_cases hp <;> norm_num [factorPos, weightCfg]

theorem volumeCfg_factorPos : ∀ p ∈ volumeCfg.units, factorPos p.2 := by
  intro p hp
  fin_cases hp <;> norm_num [factorPos, volumeCfg]

theorem factorPos_elim (u : UnitInfo) (h : factorPos u) :
    ∃ q, u.factor = some q ∧ 0 < q := by
  rcases u with ⟨n, f⟩
  cases f with
  | none => exact absurd h (by simp [factorPos])
  | some q => exact ⟨q, rfl, h⟩

theorem nonTemp_factor (category : String) (cfg : CategoryCfg) (u : String)
    (ui : UnitInfo) (hc : alookup UNITS_CONFIG category = some cfg)
    (hnt : category ≠ "temperature") (hu : alookup cfg.units u = some ui) :
    ∃ q, ui.factor = some q ∧ 0 < q := by
  have hmem := alookup_mem _ _ _ hu
  rcases config_cases category cfg hc with ⟨h1, h2⟩ | ⟨h1, h2⟩ | ⟨h1, h2⟩ | ⟨h1, h2⟩
  · exact factorPos_elim _ (lengthCfg_factorPos _ (h2 ▸ hmem))
  · exact factorPos_elim _ (weightCfg_factorPos _ (h2 ▸ hmem))
  · exact absurd h1 hnt
  · exact factorPos_elim _ (volumeCfg_factorPos _ (h2 ▸ hmem))

theorem convert_unfold (category : String) (v : ℚ) (f t : String) :
    ConverterService.convert category v f t =
      match alookup UNITS_CONFIG category with
      | none => none
      | some cfg =>
        if category = "temperature" then
          some (ConverterService.convert_temp v f t)
        else linearConvert cfg.units v f t := rfl

theorem convert_eq_none (category : String) (v : ℚ) (f t : String)
    (h : alookup UNITS_CONFIG category = none) :
    ConverterService.convert category v f t = none := by
  rw [convert_unfold, h]

theorem convert_eq_linear (category : String) (cfg : CategoryCfg) (v : ℚ)
    (f t : String) (hc : alookup UNITS_CONFIG category = some cfg)
    (hnt : category ≠ "temperature") :
    ConverterService.convert category v f t = linearConvert cfg.units v f t := by
  rw [convert_unfold, hc]
  exact if_neg hnt

theorem convert_eq_temp (v : ℚ) (f t : String) :
    ConverterService.convert "temperature" v f t =
      some (ConverterService.convert_temp v f t) := rfl

theorem linearConvert_some (units : List (String × UnitInfo)) (v : ℚ)
    (f t : String) (uf ut : UnitInfo) (ff tf : ℚ)
    (hf : alookup units f = some uf) (ht : alookup units t = some ut)
    (hff : uf.factor = some ff) (htf : ut.factor = some tf) :
    linearConvert units v f t = some (v * ff / tf) := by
  simp [linearConvert, hf, ht, hff, htf]

/-! ### Claims about the converter -/

/-- C3: for every value `v` and unit codes `f`, `t`, the temperature
conversion never returns NotFound and equals the claim's Celsius-pivot
composition `g(c(v, f), t)`, with silent fallback for unrecognised codes;
in particular 0°C = 32°F, 32°F = 0°C and 0°C = 273.15K. -/
theorem claim_C3 (v : ℚ) (f t : String) :
    ConverterService.convert "temperature" v f t =
        some (fromCelsiusPerClaim (celsiusPerClaim v f) t)
      ∧ ConverterService.convert "temperature" 0 "c" "f" = some 32
      ∧ ConverterService.convert "temperature" 32 "f" "c" = some 0
      ∧ ConverterService.convert "temperature" 0 "c" "k" = some 273.15 := by
  refine ⟨?_, ?_, ?_, ?_⟩
  · rw [convert_eq_temp]
    have : ConverterService.convert_temp v f t =
        fromCelsiusPerClaim (celsiusPerClaim v f) t := by
      unfold ConverterService.convert_temp celsiusPerClaim fromCelsiusPerClaim
      by_cases h1 : f = "c" <;> by_cases h2 : f = "f" <;> by_cases h3 : f = "k" <;>
        simp_all
    rw [this]
  · show some ((0 : ℚ) * 9 / 5 + 32) = some 32
    norm_num
  · show some (((32 : ℚ) - 32) * 5 / 9) = some 0
    norm_num
  · show some ((0 : ℚ) + 273.15) = some 273.15
    norm_num

/-- C4: `convert` returns NotFound for an unknown category; for a known
non-temperature category it returns NotFound exactly when one of the unit
codes is missing from the category's unit mapping, and otherwise returns
`value * factor[from_unit] / factor[to_unit]`; in particular
1 km = 1000 m. -/
theorem claim_C4 (category : String) (v : ℚ) (f t : String) :
    (alookup UNITS_CONFIG category = none →
      ConverterService.convert category v f t = none)
    ∧ (∀ cfg, alookup UNITS_CONFIG category = some cfg →
        category ≠ "temperature" →
        ((ConverterService.convert category v f t = none ↔
            (alookup cfg.units f = none ∨ alookup cfg.units t = none))
         ∧ ∀ uf ut, alookup cfg.units f = some uf → alookup cfg.units t = some ut →
             ∃ ff tf, uf.factor = some ff ∧ ut.factor = some tf ∧
               ConverterService.convert category v f t = some (v * ff / tf)))
    ∧ ConverterService.convert "length" 1 "km" "m" = some 1000 := by
  refine ⟨?_, ?_, ?_⟩
  · exact convert_eq_none category v f t
  · intro cfg hc hnt
    have hcv := convert_eq_linear category cfg v f t hc hnt
    constructor
    · rw [hcv]
      cases hf : alookup cfg.units f with
      | none => simp [linearConvert, hf]
      | some uf =>
        cases ht : alookup cfg.units t with
        | none => simp [linearConvert, hf, ht]
        | some ut =>
          obtain ⟨ff, hff, _⟩ := nonTemp_factor category cfg f uf hc hnt hf
          obtain ⟨tf, htf, _⟩ := nonTemp_factor category cfg t ut hc hnt ht
          simp [linearConvert, hf, ht, hff, htf]
    · intro uf ut hf ht
      obtain ⟨ff, hff, _⟩ := nonTemp_factor category cfg f uf hc hnt hf
      obtain ⟨tf, htf, _⟩ := nonTemp_factor category cfg t ut hc hnt ht
      refine ⟨ff, tf, hff, htf, ?_⟩
      rw [hcv]
      exact linearConvert_some cfg.units v f t uf ut ff tf hf ht hff htf
  · show some ((1 : ℚ) * 1000.0 / 1.0) = some 1000
    norm_num

/-- Witness for C4 at a concrete known category and unit pair. -/
theorem claim_C4_witness :
    ∃ ff tf, (⟨"Километры", some 1000.0⟩ : UnitInfo).factor = some ff ∧
      (⟨"Метры", some 1.0⟩ : UnitInfo).factor = some tf ∧
      ConverterService.convert "length" 2 "km" "m" = some (2 * ff / tf) :=
  ((claim_C4 "length" 2 "km" "m").2.1 lengthCfg rfl (by decide)).2
    ⟨"Километры", some 1000.0⟩ ⟨"Метры", some 1.0⟩ rfl rfl

/-- C5: for every non-temperature category in the table, every unit pair in
its mapping and every value v > 0, converting v from `a` to `b` and back
returns exactly v (the rational-number model makes the law exact). -/
theorem claim_C5 (category : String) (cfg : CategoryCfg) (a b : String)
    (ua ub : UnitInfo) (v : ℚ)
    (hc : alookup UNITS_CONFIG category = some cfg) (hnt : category ≠ "temperature")
    (ha : alookup cfg.units a = some ua) (hb : alookup cfg.units b = some ub)
    (hv : 0 < v) :
    ∃ w, ConverterService.convert category v a b = some w ∧
      ConverterService.convert category w b a = some v := by
  obtain ⟨fa, hfa, hfa0⟩ := nonTemp_factor category cfg a ua hc hnt ha
  obtain ⟨fb, hfb, hfb0⟩ := nonTemp_factor category cfg b ub hc hnt hb
  refine ⟨v * fa / fb, ?_, ?_⟩
  · rw [convert_eq_linear category cfg v a b hc hnt]
    exact linearConvert_some cfg.units v a b ua ub fa fb ha hb hfa hfb
  · rw [convert_eq_linear category cfg (v * fa / fb) b a hc hnt]
    rw [linearConvert_some cfg.units (v * fa / fb) b a ub ua fb fa hb ha hfb hfa]
    congr 1
    field_simp

/-- Witness for C5: 1 km to metres and back. -/
theorem claim_C5_witness :
    ∃ w, ConverterService.convert "length" 1 "km" "m" = some w ∧
      ConverterService.convert "length" w "m" "km" = some 1 :=
  claim_C5 "length" lengthCfg "km" "m" ⟨"Километры", some 1000.0⟩
    ⟨"Метры", some 1.0⟩ 1 rfl (by decide) rfl rfl (by norm_num)

/-- C7: the history append-and-cap step keeps the sequence at no more than
5 entries, appends exactly one entry at the end, and evicts the oldest
(first) entry when the length would exceed 5; after a 6th conversion
starting from 5 entries the oldest of the original 5 is gone and the 5
most recent remain in insertion order. -/
theorem claim_C7 (h : List Entry) (e e1 e2 e3 e4 e5 e6 : Entry) :
    (h.length ≤ 5 → (pushHistory h e).length ≤ 5)
    ∧ (h.length < 5 → pushHistory h e = h ++ [e])
    ∧ (h.length = 5 → pushHistory h e = h.drop 1 ++ [e])
    ∧ pushHistory [e1, e2, e3, e4, e5] e6 = [e2, e3, e4, e5, e6]
    ∧ (e1 ∉ ([e2, e3, e4, e5, e6] : List Entry) →
        e1 ∉ pushHistory [e1, e2, e3, e4, e5] e6) := by
  refine ⟨?_, ?_, ?_, rfl, ?_⟩
  · intro hle
    simp only [pushHistory]
    split_ifs with hgt
    · simp only [List.length_drop, List.length_append, List.length_singleton]
      omega
    · simp only [List.length_append, List.length_singleton] at hgt ⊢
      omega
  · intro hlt
    simp only [pushHistory]
    split_ifs with hgt
    · exfalso
      simp only [List.length_append, List.length_singleton] at hgt
      omega
    · rfl
  · intro h5
    simp only [pushHistory]
    split_ifs with hgt
    · rw [List.drop_append_eq_append_drop]
      simp [h5]
    · exfalso
      simp only [List.length_append, List.length_singleton] at hgt
      omega
  · intro hne
    exact hne

/-- Witness for C7 at concrete history entries. -/
theorem claim_C7_witness :
    pushHistory [⟨"1 a", "1 b"⟩, ⟨"2 a", "2 b"⟩, ⟨"3 a", "3 b"⟩, ⟨"4 a", "4 b"⟩,
        ⟨"5 a", "5 b"⟩] ⟨"6 a", "6 b"⟩ =
      [⟨"2 a", "2 b"⟩, ⟨"3 a", "3 b"⟩, ⟨"4 a", "4 b"⟩, ⟨"5 a", "5 b"⟩, ⟨"6 a", "6 b"⟩]
    ∧ (⟨"1 a", "1 b"⟩ : Entry) ∉
        pushHistory [⟨"1 a", "1 b"⟩, ⟨"2 a", "2 b"⟩, ⟨"3 a", "3 b"⟩, ⟨"4 a", "4 b"⟩,
          ⟨"5 a", "5 b"⟩] ⟨"6 a", "6 b"⟩
    ∧ (pushHistory [⟨"1 a", "1 b"⟩, ⟨"2 a", "2 b"⟩, ⟨"3 a", "3 b"⟩, ⟨"4 a", "4 b"⟩,
          ⟨"5 a", "5 b"⟩] ⟨"6 a", "6 b"⟩).length ≤ 5 :=
  ⟨(claim_C7 [] ⟨"", ""⟩ ⟨"1 a", "1 b"⟩ ⟨"2 a", "2 b"⟩ ⟨"3 a", "3 b"⟩ ⟨"4 a", "4 b"⟩
      ⟨"5 a", "5 b"⟩ ⟨"6 a", "6 b"⟩).2.2.2.1,
    (claim_C7 [] ⟨"", ""⟩ ⟨"1 a", "1 b"⟩ ⟨"2 a", "2 b"⟩ ⟨"3 a", "3 b"⟩ ⟨"4 a", "4 b"⟩
      ⟨"5 a", "5 b"⟩ ⟨"6 a", "6 b"⟩).2.2.2.2 (by decide),
    (claim_C7 [⟨"1 a", "1 b"⟩, ⟨"2 a", "2 b"⟩, ⟨"3 a", "3 b"⟩, ⟨"4 a", "4 b"⟩,
        ⟨"5 a", "5 b"⟩] ⟨"6 a", "6 b"⟩ ⟨"", ""⟩ ⟨"", ""⟩ ⟨"", ""⟩ ⟨"", ""⟩ ⟨"", ""⟩
      ⟨"", ""⟩).1 (by decide)⟩

/-- C8 counterexample: the request (temperature, 0, x, c) has an unknown
from-unit (`x` is not in the temperature unit mapping), yet `convert` does
not return NotFound — it silently falls back to treating `x` as Celsius
and returns 0. -/
theorem claim_C8_counterexample :
    alookup temperatureCfg.units "x" = none
      ∧ ConverterService.convert "temperature" 0 "x" "c" = some 0 :=
  ⟨rfl, rfl⟩

/-- C8 as amended: for a request whose category is unknown, or whose
category is a known non-temperature category and one of whose units is
unknown, `convert` returns NotFound without raising and the `do_POST`
convert action leaves the history sequence exactly as it was. (Temperature
requests are excluded: unknown temperature units silently fall back.) -/
theorem claim_C8 (hist : List Entry) (category amount_str : String) (v : ℚ)
    (f t : String) :
    (alookup UNITS_CONFIG category = none →
       ConverterService.convert category v f t = none
         ∧ postConvertHistory hist category amount_str v f t = some hist)
    ∧ (∀ cfg, alookup UNITS_CONFIG category = some cfg →
        category ≠ "temperature" →
        (alookup cfg.units f = none ∨ alookup cfg.units t = none) →
        ConverterService.convert category v f t = none
          ∧ postConvertHistory hist category amount_str v f t = some hist) := by
  have hpost : ConverterService.convert category v f t = none →
      postConvertHistory hist category amount_str v f t = some hist := by
    intro hcv
    unfold postConvertHistory
    rw [hcv]
  constructor
  · intro h
    have hcv := convert_eq_none category v f t h
    exact ⟨hcv, hpost hcv⟩
  · intro cfg hc hnt hun
    have hcv : ConverterService.convert category v f t = none := by
      rw [convert_eq_linear category cfg v f t hc hnt]
      rcases hun with hf | ht
      · simp [linearConvert, hf]
      · cases hf : alookup cfg.units f <;> simp [linearConvert, hf, ht]
    exact ⟨hcv, hpost hcv⟩

/-- Witness for C8 at a concrete unknown category. -/
theorem claim_C8_witness :
    ConverterService.convert "speed" 1 "a" "b" = none
      ∧ postConvertHistory [⟨"3 a", "3 b"⟩] "speed" "1" 1 "a" "b" =
          some [⟨"3 a", "3 b"⟩] :=
  (claim_C8 [⟨"3 a", "3 b"⟩] "speed" "1" 1 "a" "b").1 rfl

/-- C9 counterexample: a template file that exists but whose read raises
(modelled by `content = none`) makes `render` propagate the exception
instead of returning the fixed error fragment — the `exists()` guard is
the only protection. -/
theorem claim_C9_counterexample :
    TemplateEngine.render ⟨true, none⟩ [] = none
      ∧ (none : Option (List Char)) ≠ some ERROR_FRAGMENT :=
  ⟨rfl, by decide⟩

/-- C9 as amended: for every context, if the template file does not exist
(`exists()` is false), `render` returns the fixed error fragment — the
same string regardless of context — and does not raise; an existing file
whose read fails is not guarded and the error propagates. -/
theorem claim_C9 (tf : TemplateFile) (ctx : Context) (h : tf.found = false) :
    TemplateEngine.render tf ctx = some ERROR_FRAGMENT := by
  unfold TemplateEngine.render
  rw [h]
  simp

/-- Witness for C9 at a concrete missing file. -/
theorem claim_C9_witness :
    TemplateEngine.render ⟨false, none⟩ [] = some ERROR_FRAGMENT :=
  claim_C9 ⟨false, none⟩ [] rfl

/-! ### Claims about the template engine -/

theorem foldl_prepend {α : Type} (g : α → List Char) (l : List α) (init : List Char) :
    l.foldl (fun acc it => g it ++ acc) init = (l.map g).reverse.flatten ++ init := by
  induction l generalizing init with
  | nil => simp
  | cons a l ih => simp [ih, List.append_assoc]

/-- C1: stage 1 replaces a loop block by the else-body verbatim when the
named context key is absent or holds an empty sequence, and by the
concatenation, in reverse of the sequence's stored order, of the per-item
rendered bodies when the sequence is non-empty; the example template
yields "none" for an empty or absent `h` and "[2][1]" for
`h = [x:1, x:2]`. -/
theorem claim_C1 (ctx : Context) (nm B E : List Char) (items : List Item) :
    (alookup ctx nm = none → loop_replacer ctx nm B E = some E)
    ∧ (alookup ctx nm = some (Value.list []) → loop_replacer ctx nm B E = some E)
    ∧ (alookup ctx nm = some (Value.list items) → items ≠ [] →
        loop_replacer ctx nm B E =
          some ((items.map (renderItem B)).reverse.flatten))
    ∧ subLoops [] tmplC1 = some (s2l "none")
    ∧ subLoops [(s2l "h", Value.list [])] tmplC1 = some (s2l "none")
    ∧ subLoops
        [(s2l "h", Value.list [[(s2l "x", Scalar.int 1)], [(s2l "x", Scalar.int 2)]])]
        tmplC1 = some (s2l "[2][1]") := by
  refine ⟨?_, ?_, ?_, by decide, by decide, by decide⟩
  · intro h
    simp [loop_replacer, h]
  · intro h
    simp [loop_replacer, h]
  · intro h hne
    cases items with
    | nil => exact absurd rfl hne
    | cons a l =>
      simp [loop_replacer, h, foldl_prepend]

/-- Witness for C1: the non-empty-sequence equation at a concrete context. -/
theorem claim_C1_witness :
    loop_replacer [(s2l "h", Value.list [[(s2l "x", Scalar.int 7)]])] (s2l "h")
        (s2l "B") (s2l "E") =
      some (([[(s2l "x", Scalar.int 7)]].map (renderItem (s2l "B"))).reverse.flatten) :=
  (claim_C1 [(s2l "h", Value.list [[(s2l "x", Scalar.int 7)]])] (s2l "h") (s2l "B")
    (s2l "E") [[(s2l "x", Scalar.int 7)]]).2.2.1 rfl (by decide)

theorem subIfs_tmplC6 (ctx : Context) :
    subIfs ctx tmplC6 = if_replacer ctx (s2l "flag") (s2l "shown") ++ s2l "rest" := rfl

/-- C6: stage 2 replaces an if-block by its inner body verbatim when the
named key is truthy in the context (non-empty string, non-zero number,
boolean true, non-empty sequence) and by the empty string otherwise,
absent keys included; the example template yields "rest" for a false or
absent flag and "shownrest" for a true one. -/
theorem claim_C6 (ctx : Context) (nm inner : List Char) (v : Value) :
    if_replacer ctx nm inner = (if pyTruthy (alookup ctx nm) then inner else [])
    ∧ pyTruthy none = false
    ∧ pyTruthy (some v) = truthyPerClaim v
    ∧ subIfs ctx tmplC6 =
        (if pyTruthy (alookup ctx (s2l "flag")) then s2l "shownrest" else s2l "rest")
    ∧ subIfs [] tmplC6 = s2l "rest"
    ∧ subIfs [(s2l "flag", Value.scalar (Scalar.bool false))] tmplC6 = s2l "rest"
    ∧ subIfs [(s2l "flag", Value.scalar (Scalar.bool true))] tmplC6 = s2l "shownrest" := by
  refine ⟨rfl, rfl, ?_, ?_, by decide, by decide, by decide⟩
  · cases v with
    | scalar s =>
      cases s with
      | str cs => cases cs <;> rfl
      | int n => rfl
      | float q => rfl
      | bool b => rfl
    | list l => cases l <;> rfl
  · rw [subIfs_tmplC6]
    unfold if_replacer
    cases hx : pyTruthy (alookup ctx (s2l "flag")) <;> simp [hx] <;> decide

/-- C2 counterexample: a boolean-valued context key IS substituted by
stage 3 — `isinstance(True, int)` holds in Python, since `bool` is a
subclass of `int` — so the marker does not remain verbatim: it becomes
"True". -/
theorem claim_C2_counterexample :
    isinstance_str_int_float (Value.scalar (Scalar.bool true)) = true
      ∧ stage3 [(s2l "flag", Value.scalar (Scalar.bool true))] (varMarker (s2l "flag"))
          = s2l "True"
      ∧ s2l "True" ≠ varMarker (s2l "flag") := by
  refine ⟨rfl, by decide, by decide⟩

/-- C2 as amended: stage 3 substitutes every context key whose value is a
string, integer, floating-point number, or boolean (Python booleans are
integers, rendering as "True"/"False"); a key whose value is a sequence or
absent is not substituted, so its marker remains verbatim. -/
theorem claim_C2 (k : List Char) (sv : Scalar) (l : List Item) (ctx : Context)
    (txt : List Char) :
    stage3 [] txt = txt
    ∧ stage3 ((k, Value.scalar sv) :: ctx) txt =
        stage3 ctx (replaceAll (varMarker k) (pyStrScalar sv) txt)
    ∧ stage3 ((k, Value.list l) :: ctx) txt = stage3 ctx txt
    ∧ stage3 [(s2l "x", Value.scalar (Scalar.int 7))]
        (s2l "a \x7b\x7b x \x7d\x7d b \x7b\x7b x \x7d\x7d") = s2l "a 7 b 7"
    ∧ stage3 [(s2l "h", Value.list [[(s2l "x", Scalar.int 1)]])] (varMarker (s2l "h"))
        = varMarker (s2l "h")
    ∧ stage3 [(s2l "name", Value.scalar (Scalar.str (s2l "Bob")))]
        (varMarker (s2l "name")) = s2l "Bob" :=
  ⟨rfl, rfl, rfl, by decide, by decide, by decide⟩

/-- C10: inside a loop body only the markers of fields actually present in
the item record are substituted; a marker naming an absent field (here
`item.y` for an item that only has `x`) is left verbatim in that item's
rendered body — no error and no empty-string replacement. -/
theorem claim_C10 (v : Scalar) (B : List Char) :
    renderItem B [] = B
    ∧ renderItem bodyC10 [(s2l "x", v)] =
        s2l "[" ++ pyStrScalar v ++ s2l "]\x7b\x7b item.y \x7d\x7d"
    ∧ subLoops [(s2l "h", Value.list [[(s2l "x", Scalar.int 1)]])] tmplC10 =
        some (s2l "[1]\x7b\x7b item.y \x7d\x7d") :=
  ⟨rfl, rfl, by decide⟩
